import Mathlib

/-!
Verification development for the travel-app backend (Python/FastAPI).

The development shallowly embeds the place/comment aggregation and
rating-update subsystem: `score_and_update_place` from `main.py`, the
composer `get_all_places_with_comments` from `crud.py`, the two
`create_response` helpers (`main.py` and `response_models.py`), and the
pydantic `CommentResponse` schema from `schemas.py`.

Embedding conventions:
- Python floats are embedded as exact rationals (ℚ); the claims are about
  the arithmetic the code performs, not IEEE-754 rounding.
- Python exceptions are embedded as `Except` values: `predict_score` (an
  external ML pipeline call that may raise) becomes an abstract
  `scorer : String → Except String ℚ` parameter; Python's true division,
  which raises `ZeroDivisionError` on a zero denominator, becomes `pyDiv`.
- The SQLAlchemy session is embedded as an explicit `Store` value (lists of
  places and comments); `db.commit()` of a mutated ORM row becomes a pure
  store update.
- `datetime` timestamps are opaque to every claim, so they are embedded
  as `ℕ`.
-/

namespace TravelApp

/-- Python's `str.split(sep)` for a one-character separator `sep`
(as used on tag strings: `place.tags.split(',')`). Python's semantics:
`"".split(',') == ['']`, `"a,,b".split(',') == ['a','','b']` — exactly
`List.splitOn` on the character list. -/
def pySplit (s : String) (sep : Char) : List String :=
  (s.toList.splitOn sep).map (fun cs => String.mk cs)

/-- JSON-like values, enough to state the shape of the response
dictionaries the endpoints build (`None` ↦ `null`, floats ↦ `num`). -/
inductive JVal where
  | null : JVal
  | str : String → JVal
  | num : ℚ → JVal
deriving DecidableEq

/-- A JSON object as an ordered association list, embedding a Python dict
built by inserting fresh keys in program order. -/
abbrev JObj := List (String × JVal)

/-- The arithmetic error Python raises from `/` with zero denominator. -/
inductive PyErr where
  | zeroDivision : PyErr
deriving DecidableEq

/-- `str(e)` for the embedded arithmetic error, as interpolated into the
`f"Internal Server Error: {str(e)}"` message of the blanket handler. -/
def pyErrMsg : PyErr → String
  | PyErr.zeroDivision => "division by zero"

/-- Python's true division: raises `ZeroDivisionError` when the denominator
is zero, otherwise returns the exact quotient. -/
def pyDiv (a b : ℚ) : Except PyErr ℚ :=
  if b = 0 then Except.error PyErr.zeroDivision else Except.ok (a / b)

/-- The `Comment` ORM row (`models.py`, class `Comment`): id, user id,
place id, timestamp, text, email, name. -/
structure Comment where
  id : ℕ
  user_id : ℕ
  place_id : ℕ
  commented_at : ℕ
  comment_text : String
  email : String
  name : String
deriving DecidableEq

/-- The `Place` ORM row (`models.py`, class `Place`): id, image URL, title,
owning user id, author display name, posted date, content, rating score,
comma-delimited tag string. -/
structure Place where
  id : ℕ
  img : String
  title : String
  user_id : ℕ
  user_full_name : String
  posted_date : ℕ
  content : String
  rating_score : ℚ
  tags : String
deriving DecidableEq

/-- The persistent store visible to the subsystem: the `places` and
`comments` tables. -/
structure Store where
  places : List Place
  comments : List Comment
deriving DecidableEq

/-- `crud.get_comments_by_place_id`: all comments whose `place_id` matches,
in store order. -/
def get_comments_by_place_id (db : Store) (place_id : ℕ) : List Comment :=
  db.comments.filter (fun c => c.place_id == place_id)

/-- `crud.get_place_by_place_id`: `.first()` on the filtered query — the
first place with the given id, or `none`. -/
def get_place_by_place_id (db : Store) (place_id : ℕ) : Option Place :=
  db.places.find? (fun p => p.id == place_id)

/-- The committed effect of `place.rating_score = v; db.commit()` in
`score_and_update_place`: the rating of the place(s) with the given id is
overwritten, nothing else changes (ids are primary keys, so at most one
row matches). -/
def updateRating (db : Store) (place_id : ℕ) (v : ℚ) : Store :=
  { db with
    places := db.places.map
      (fun p => if p.id == place_id then { p with rating_score := v } else p) }

/-- The module-local `create_response` defined at `main.py:295`: always a
three-key dict `{"status": status, "message": message, "data": data}`, the
`"data"` key present even when the Python caller passes `data=None`
(embedded as `JVal.null`). -/
def mainCreateResponse (status message : String) (data : JVal) : JObj :=
  [("status", JVal.str status), ("message", JVal.str message), ("data", data)]

/-- `response_models.create_response`: builds `{"status", "message"}` and
adds the `"data"` key only when `data is not None` (embedded as
`Option JVal`). -/
def responseModelsCreateResponse (status message : String) (data : Option JVal) :
    JObj :=
  match data with
  | some d => [("status", JVal.str status), ("message", JVal.str message), ("data", d)]
  | none => [("status", JVal.str status), ("message", JVal.str message)]

/-- The aggregation step of `score_and_update_place` (`main.py:316`):
`avg_score = sum(scores) / len(scores)` — the arithmetic mean via Python
division, which raises `ZeroDivisionError` on an empty list. -/
def aggregate (scores : List ℚ) : Except PyErr ℚ :=
  pyDiv scores.sum (scores.length : ℚ)

/-- The scoring comprehension of `score_and_update_place` (`main.py:313`):
`[predict_score(comment) for comment in comments_list]`, where the first
raised scorer exception escapes the whole comprehension. -/
def scoreList (scorer : String → Except String ℚ) :
    List String → Except String (List ℚ)
  | [] => Except.ok []
  | t :: ts =>
    match scorer t with
    | Except.error e => Except.error e
    | Except.ok s =>
      match scoreList scorer ts with
      | Except.error e => Except.error e
      | Except.ok ss => Except.ok (s :: ss)

/-- `main.score_and_update_place` (`main.py:299-334`), the rating-update
endpoint body. Its whole body runs under a blanket `except Exception`
whose handler returns the module-local `create_response` envelope (the
`def` at `main.py:295` shadows the import from `response_models` for the
whole module, Python resolving globals at call time). Steps, in source
order: fetch the place's comments; score each comment text with
`predict_score` (first raised scorer error aborts); compute
`sum(scores)/len(scores)` (raises `ZeroDivisionError` on zero comments,
caught by the handler); multiply by 5; look up the place, and either
commit the new rating and return `{"rating_score": value}` or return the
"Place not found !" error envelope. Returns the post-state of the store
together with the response value. -/
def score_and_update_place (scorer : String → Except String ℚ) (db : Store)
    (place_id : ℕ) : Store × JObj :=
  let comments := get_comments_by_place_id db place_id
  let comments_list := comments.map (fun c => c.comment_text)
  match scoreList scorer comments_list with
  | Except.error e =>
      (db, mainCreateResponse "error" ("Internal Server Error: " ++ e) JVal.null)
  | Except.ok scores =>
    match aggregate scores with
    | Except.error e =>
        (db, mainCreateResponse "error" ("Internal Server Error: " ++ pyErrMsg e)
          JVal.null)
    | Except.ok avg_score =>
      let avg_score_0_to_5 := avg_score * 5
      match get_place_by_place_id db place_id with
      | some _ =>
          (updateRating db place_id avg_score_0_to_5,
            [("rating_score", JVal.num avg_score_0_to_5)])
      | none => (db, mainCreateResponse "error" "Place not found !" JVal.null)

/-- The pydantic schema `schemas.CommentResponse` (`schemas.py:132-140`):
comment id, text, email, name, timestamp, user id, user image, place id —
`user_image : str` is a required field with no default. -/
structure CommentResponse where
  comment_id : ℕ
  comment_text : String
  email : String
  name : String
  commented_at : ℕ
  user_id : ℕ
  user_image : String
  place_id : ℕ
deriving DecidableEq

/-- The message of the pydantic `ValidationError` raised when
`CommentResponse` is constructed without its required `user_image`. -/
def userImageValidationError : String :=
  "1 validation error for CommentResponse: user_image field required"

/-- Pydantic construction of `CommentResponse` with keyword arguments:
every field of the schema must be supplied; a call site that omits the
required `user_image` (embedded as passing `none`) raises a
`ValidationError` instead of producing a record. -/
def mkCommentResponse (comment_id : ℕ) (comment_text email name : String)
    (commented_at user_id : ℕ) (user_image : Option String) (place_id : ℕ) :
    Except String CommentResponse :=
  match user_image with
  | none => Except.error userImageValidationError
  | some img =>
      Except.ok
        { comment_id := comment_id, comment_text := comment_text, email := email,
          name := name, commented_at := commented_at, user_id := user_id,
          user_image := img, place_id := place_id }

/-- The comment-mapping comprehension of `crud.get_all_places_with_comments`
(`crud.py:173-184`): each comment is passed to `CommentResponse` with
exactly `comment_id`, `comment_text`, `email`, `name`, `commented_at`,
`user_id`, `place_id` — and no `user_image` argument. A raised
`ValidationError` escapes the whole comprehension. -/
def composeComments : List Comment → Except String (List CommentResponse)
  | [] => Except.ok []
  | c :: cs =>
    match mkCommentResponse c.id c.comment_text c.email c.name c.commented_at
        c.user_id none c.place_id with
    | Except.error e => Except.error e
    | Except.ok r =>
      match composeComments cs with
      | Except.error e => Except.error e
      | Except.ok rs => Except.ok (r :: rs)

/-- The composed place-with-comments record built at `crud.py:186-197`. -/
structure PlaceWithComments where
  id : ℕ
  img : String
  title : String
  content : String
  tags : List String
  user_id : ℕ
  user_full_name : String
  rating_score : ℚ
  posted_date : ℕ
  comments : List CommentResponse
deriving DecidableEq

/-- The per-place dict of `crud.get_all_places_with_comments`
(`crud.py:186-197`): copies the place's fields and decodes
`place.tags.split(',')`. -/
def composePlaceRecord (place : Place) (comments_response : List CommentResponse) :
    PlaceWithComments :=
  { id := place.id, img := place.img, title := place.title,
    content := place.content, tags := pySplit place.tags ',',
    user_id := place.user_id, user_full_name := place.user_full_name,
    rating_score := place.rating_score, posted_date := place.posted_date,
    comments := comments_response }

/-- The place loop of `crud.get_all_places_with_comments`: for each place,
fetch its comments, map them through `CommentResponse` (a raised pydantic
`ValidationError` escapes the loop — there is no `try` in `crud.py`), and
append the composed record. -/
def composeAll (db : Store) : List Place → Except String (List PlaceWithComments)
  | [] => Except.ok []
  | place :: rest =>
    match composeComments (get_comments_by_place_id db place.id) with
    | Except.error e => Except.error e
    | Except.ok comments_response =>
      match composeAll db rest with
      | Except.error e => Except.error e
      | Except.ok out => Except.ok (composePlaceRecord place comments_response :: out)

/-- `crud.get_all_places_with_comments` (`crud.py:167-201`): composes every
place in the store with its comments. -/
def get_all_places_with_comments (db : Store) :
    Except String (List PlaceWithComments) :=
  composeAll db db.places

/-! Concrete fixtures used to instantiate the theorems. -/

/-- A sample place with id 1 and the tag string of §8 property 3. -/
def place1 : Place :=
  { id := 1, img := "https://example/img.png", title := "Beach spot",
    user_id := 1, user_full_name := "Ann Lee", posted_date := 0,
    content := "nice", rating_score := 0, tags := "beach,sunset,family" }

/-- A sample comment on the given place with the given text. -/
def mkComment (i pid : ℕ) (text : String) : Comment :=
  { id := i, user_id := 1, place_id := pid, commented_at := 0,
    comment_text := text, email := "a@b.c", name := "Ann" }

/-- A deterministic scorer: scores the texts "a", "b", "c" as 1/5, 2/5,
3/5 and fails on any other input with message "bad-input". -/
def scorer1 : String → Except String ℚ := fun s =>
  if s = "a" then Except.ok (1/5)
  else if s = "b" then Except.ok (2/5)
  else if s = "c" then Except.ok (3/5)
  else Except.error "bad-input"

/-- Store: place 1 with three comments scored 1/5, 2/5, 3/5 by `scorer1`. -/
def store1 : Store :=
  { places := [place1],
    comments := [mkComment 1 1 "a", mkComment 2 1 "b", mkComment 3 1 "c"] }

/-- Store: place 1 with comments ["a", "bad"]; `scorer1` fails on "bad". -/
def store2 : Store :=
  { places := [place1], comments := [mkComment 1 1 "a", mkComment 2 1 "bad"] }

/-- Store: a comment attached to place id 5, but no place with id 5. -/
def store3 : Store :=
  { places := [place1], comments := [mkComment 1 5 "a"] }

/-- Store: place 1 exists but has no comments. -/
def storePlaceNoComments : Store :=
  { places := [place1], comments := [] }

/-- The empty store: no places, no comments. -/
def storeEmpty : Store :=
  { places := [], comments := [] }

/-! Helper lemmas shared by the claim theorems. -/

/-- Updating a rating leaves the comments table untouched, so every
comment fetch is unchanged. -/
theorem get_comments_updateRating (db : Store) (pid pid' : ℕ) (v : ℚ) :
    get_comments_by_place_id (updateRating db pid v) pid'
      = get_comments_by_place_id db pid' := rfl

/-- `find?` through the rating-overwriting map: the found place is the
found original with its rating overwritten. -/
theorem find?_setRating (places : List Place) (pid : ℕ) (v : ℚ) :
    (places.map
        (fun p => if p.id == pid then { p with rating_score := v } else p)).find?
        (fun p => p.id == pid)
      = (places.find? (fun p => p.id == pid)).map
          (fun p => { p with rating_score := v }) := by
  induction places with
  | nil => rfl
  | cons p ps ih =>
    by_cases h : p.id == pid
    · have h2 : (({ p with rating_score := v } : Place).id == pid) = true := h
      simp only [List.map_cons, if_pos h]
      rw [@List.find?_cons_of_pos _ (fun q : Place => q.id == pid) _ _ h2,
        @List.find?_cons_of_pos _ (fun q : Place => q.id == pid) _ _ h]
      rfl
    · simp only [List.map_cons, if_neg h]
      rw [@List.find?_cons_of_neg _ (fun q : Place => q.id == pid) _ _ h,
        @List.find?_cons_of_neg _ (fun q : Place => q.id == pid) _ _ h, ih]

/-- Looking a place up after its rating was overwritten returns the
original place with the new rating. -/
theorem get_place_updateRating (db : Store) (pid : ℕ) (v : ℚ) :
    get_place_by_place_id (updateRating db pid v) pid
      = (get_place_by_place_id db pid).map
          (fun p => { p with rating_score := v }) :=
  find?_setRating db.places pid v

/-- Overwriting a field with the value it already holds twice is the same
as doing it once. -/
theorem setRating_comp (pid : ℕ) (v : ℚ) (p : Place) :
    (fun q : Place => if q.id == pid then { q with rating_score := v } else q)
        ((fun q : Place => if q.id == pid then { q with rating_score := v } else q) p)
      = (fun q : Place => if q.id == pid then { q with rating_score := v } else q) p := by
  by_cases h : p.id == pid <;> simp [h]

/-- `updateRating` is idempotent for a fixed value. -/
theorem updateRating_idem (db : Store) (pid : ℕ) (v : ℚ) :
    updateRating (updateRating db pid v) pid v = updateRating db pid v := by
  simp only [updateRating, List.map_map]
  exact congrArg (Store.mk · db.comments)
    (List.map_congr_left (fun p _ => setRating_comp pid v p))

/-- Every value `score_and_update_place` returns is either the bare
success dict `{"rating_score": v}` or an error envelope built by the
module-local `create_response` (status `"error"`, `data` bound to null). -/
theorem score_result_shape (scorer : String → Except String ℚ) (db : Store)
    (place_id : ℕ) :
    (∃ v, (score_and_update_place scorer db place_id).2
        = [("rating_score", JVal.num v)])
    ∨ ∃ msg, (score_and_update_place scorer db place_id).2
        = mainCreateResponse "error" msg JVal.null := by
  cases h1 : scoreList scorer
      ((get_comments_by_place_id db place_id).map (fun c => c.comment_text)) with
  | error e =>
      exact Or.inr ⟨"Internal Server Error: " ++ e,
        by simp [score_and_update_place, h1]⟩
  | ok scores =>
      cases h2 : aggregate scores with
      | error e =>
          exact Or.inr ⟨"Internal Server Error: " ++ pyErrMsg e,
            by simp [score_and_update_place, h1, h2]⟩
      | ok avg =>
          cases h3 : get_place_by_place_id db place_id with
          | none =>
              exact Or.inr ⟨"Place not found !",
                by simp [score_and_update_place, h1, h2, h3]⟩
          | some p =>
              exact Or.inl ⟨avg * 5,
                by simp [score_and_update_place, h1, h2, h3]⟩

/-! Claim theorems. -/

/-- Claim C9: invoking the aggregation step (`sum(scores)/len(scores)`,
`main.py:316`) on an empty score sequence fails with the division-by-zero
error and does not return any defined default value. -/
theorem c9_aggregate_empty_fails_division_by_zero :
    aggregate [] = Except.error PyErr.zeroDivision
    ∧ ∀ q : ℚ, aggregate [] ≠ Except.ok q := by
  constructor
  · simp [aggregate, pyDiv]
  · intro q h
    simp [aggregate, pyDiv] at h

/-- Claim C5: the composer decodes the place's comma-delimited tag string
into an ordered sequence of strings (`place.tags.split(',')`,
`crud.py:191`): every composed record carries the split of the stored tag
string, `"beach,sunset,family"` decodes to exactly
`["beach", "sunset", "family"]`, and the empty tag string decodes to the
single-element sequence `[""]`. -/
theorem c5_composer_tag_decoding :
    (∀ (p : Place) (cr : List CommentResponse),
        (composePlaceRecord p cr).tags = pySplit p.tags ',')
    ∧ get_all_places_with_comments storePlaceNoComments
        = Except.ok [composePlaceRecord place1 []]
    ∧ (composePlaceRecord place1 []).tags = ["beach", "sunset", "family"]
    ∧ (composePlaceRecord { place1 with tags := "" } []).tags = [""] :=
  ⟨fun _ _ => rfl, rfl, rfl, rfl⟩

/-- Claim C8 (code defect): the comment-mapping comprehension
(`crud.py:173-184`) passes exactly comment id, text, email, name,
timestamp, user id and place id to `CommentResponse`, and never supplies
the schema's required `user_image` field (`schemas.py:139`); pydantic
construction therefore raises a `ValidationError` for every comment —
there is no join against the User and no empty-string fallback — so
composing any place that has at least one comment fails. -/
theorem c8_composer_user_image_validation_error :
    (∀ (c : Comment) (cs : List Comment),
        composeComments (c :: cs) = Except.error userImageValidationError)
    ∧ get_all_places_with_comments store1
        = Except.error userImageValidationError :=
  ⟨fun _ _ => rfl, rfl⟩

/-- Claim C7: the rating-update endpoint returns exactly
`{"rating_score": v}` on success, and on every failure path the uniform
envelope `{"status": "error", "message": msg, "data": null}`, the
`"data"` key present and bound to null. -/
theorem c7_endpoint_response_shape (scorer : String → Except String ℚ)
    (db : Store) (place_id : ℕ) :
    (∃ v, (score_and_update_place scorer db place_id).2
        = [("rating_score", JVal.num v)])
    ∨ ∃ msg, (score_and_update_place scorer db place_id).2
        = [("status", JVal.str "error"), ("message", JVal.str msg),
           ("data", JVal.null)] := by
  rcases score_result_shape scorer db place_id with h | ⟨msg, h⟩
  · exact Or.inl h
  · exact Or.inr ⟨msg, h⟩

/-- Claim C10: the module-local `create_response` (`main.py:295`) and the
imported `response_models.create_response` are not equivalent — for every
status and message with `data = None`, the local version emits an explicit
`"data"` key bound to null while the imported version omits the `"data"`
key entirely — and every error envelope the rating-update endpoint
produces has the shape of the shadowing local definition (the `"data"`
key present and null). -/
theorem c10_create_response_shadowing :
    (∀ status message : String,
        ("data", JVal.null) ∈ mainCreateResponse status message JVal.null
        ∧ (responseModelsCreateResponse status message none).lookup "data" = none
        ∧ mainCreateResponse status message JVal.null
            ≠ responseModelsCreateResponse status message none)
    ∧ ∀ (scorer : String → Except String ℚ) (db : Store) (place_id : ℕ),
        (∃ v, (score_and_update_place scorer db place_id).2
            = [("rating_score", JVal.num v)])
        ∨ ∃ msg, (score_and_update_place scorer db place_id).2
            = mainCreateResponse "error" msg JVal.null := by
  constructor
  · intro status message
    refine ⟨by simp [mainCreateResponse], rfl, fun hEq => ?_⟩
    have hLen := congrArg List.length hEq
    simp [mainCreateResponse, responseModelsCreateResponse] at hLen
  · exact score_result_shape

/-- Claim C1: for every non-empty sequence of comment scores obtained for
a present place, the rating update computes the arithmetic mean of the
scores and linearly rescales it from [0,1] to [0,5] by multiplying by 5,
committing and returning exactly that value. -/
theorem c1_rating_update_mean_times_five (scorer : String → Except String ℚ)
    (db : Store) (place_id : ℕ) (scores : List ℚ) (p : Place)
    (hscores : scoreList scorer
        ((get_comments_by_place_id db place_id).map (fun c => c.comment_text))
      = Except.ok scores)
    (hne : scores ≠ [])
    (hp : get_place_by_place_id db place_id = some p) :
    score_and_update_place scorer db place_id
      = (updateRating db place_id (scores.sum / (scores.length : ℚ) * 5),
         [("rating_score", JVal.num (scores.sum / (scores.length : ℚ) * 5))]) := by
  have hlen0 : scores.length ≠ 0 := fun h0 => hne (List.length_eq_zero.mp h0)
  have hlen : (scores.length : ℚ) ≠ 0 := Nat.cast_ne_zero.mpr hlen0
  simp [score_and_update_place, hscores, aggregate, pyDiv, hlen, hp]

/-- Witness for C1: for comment scores 1/5, 2/5, 3/5 (the 0.2, 0.4, 0.6
of the spec) the returned rating is their mean rescaled by 5, namely 2. -/
theorem c1_witness :
    scoreList scorer1
        ((get_comments_by_place_id store1 1).map (fun c => c.comment_text))
      = Except.ok [1/5, 2/5, 3/5]
    ∧ ([(1:ℚ)/5, 2/5, 3/5] : List ℚ) ≠ []
    ∧ get_place_by_place_id store1 1 = some place1
    ∧ (score_and_update_place scorer1 store1 1).2
        = [("rating_score", JVal.num 2)] := by
  refine ⟨rfl, by simp, rfl, ?_⟩
  have h := c1_rating_update_mean_times_five scorer1 store1 1 [1/5, 2/5, 3/5]
    place1 rfl (by simp) rfl
  rw [h]
  norm_num [List.sum_cons, List.sum_nil]

/-- Claim C2 (amended): for every place id whose comment fetch returns
zero comments there is no distinct "no comments / not scorable"
condition: the aggregation's division-by-zero is caught by the blanket
handler and reported to the caller as the generic internal-error envelope
naming division by zero, with the store unchanged; no raised exception
escapes. -/
theorem c2_zero_comments_generic_division_error
    (scorer : String → Except String ℚ) (db : Store) (place_id : ℕ)
    (h : get_comments_by_place_id db place_id = []) :
    score_and_update_place scorer db place_id
      = (db, mainCreateResponse "error"
          "Internal Server Error: division by zero" JVal.null) := by
  simp [score_and_update_place, h, scoreList, aggregate, pyDiv, pyErrMsg]

/-- Witness for C2 (amended): a place id with no comments in the empty
store yields the division-by-zero internal-error envelope. -/
theorem c2_witness :
    get_comments_by_place_id storeEmpty 7 = []
    ∧ score_and_update_place scorer1 storeEmpty 7
        = (storeEmpty, mainCreateResponse "error"
            "Internal Server Error: division by zero" JVal.null) :=
  ⟨rfl, c2_zero_comments_generic_division_error scorer1 storeEmpty 7 rfl⟩

/-- Counterexample to C2 as stated: place 1 exists and its comment fetch
returns zero comments, yet the controller's response is the generic
internal-error envelope carrying the division-by-zero message — a
division-by-zero condition surfaced to the caller, and no distinct
"no comments / not scorable" condition. -/
theorem c2_counterexample :
    get_comments_by_place_id storePlaceNoComments 1 = []
    ∧ score_and_update_place scorer1 storePlaceNoComments 1
        = (storePlaceNoComments,
           [("status", JVal.str "error"),
            ("message", JVal.str "Internal Server Error: division by zero"),
            ("data", JVal.null)]) := by
  refine ⟨rfl, ?_⟩
  simp [score_and_update_place, scoreList, aggregate, pyDiv, pyErrMsg,
    mainCreateResponse, get_comments_by_place_id, storePlaceNoComments]

/-- Claim C3: if any single scorer invocation raises, the whole rating
update aborts on the first scorer exception: the caller receives the
structured error envelope wrapping the scorer's message, and the stored
ratings are unchanged (no partial write is committed). -/
theorem c3_scorer_failure_aborts (scorer : String → Except String ℚ)
    (db : Store) (place_id : ℕ) (e : String)
    (h : scoreList scorer
        ((get_comments_by_place_id db place_id).map (fun c => c.comment_text))
      = Except.error e) :
    score_and_update_place scorer db place_id
      = (db, mainCreateResponse "error" ("Internal Server Error: " ++ e)
          JVal.null) := by
  simp [score_and_update_place, h]

/-- Witness for C3: with comments ["a", "bad"] and a scorer failing only
on "bad", the update aborts with the scorer's error wrapped in the
envelope and place 1 keeps its stored rating 0. -/
theorem c3_witness :
    scoreList scorer1
        ((get_comments_by_place_id store2 1).map (fun c => c.comment_text))
      = Except.error "bad-input"
    ∧ score_and_update_place scorer1 store2 1
        = (store2, mainCreateResponse "error"
            "Internal Server Error: bad-input" JVal.null)
    ∧ (get_place_by_place_id store2 1).map (fun p => p.rating_score)
        = some 0 := by
  refine ⟨rfl, ?_, rfl⟩
  have h := c3_scorer_failure_aborts scorer1 store2 1 "bad-input" rfl
  rw [h]
  rfl

/-- Claim C4 (amended): for a place id absent from the store whose comment
fetch returns a nonempty list on all of which the scorer succeeds, the
rating update returns the structured "Place not found !" envelope from the
place-lookup path with the store unchanged; no raised exception escapes
the controller (every failure is converted into an envelope). -/
theorem c4_place_absent_not_found (scorer : String → Except String ℚ)
    (db : Store) (place_id : ℕ) (scores : List ℚ)
    (hscores : scoreList scorer
        ((get_comments_by_place_id db place_id).map (fun c => c.comment_text))
      = Except.ok scores)
    (hne : scores ≠ [])
    (habsent : get_place_by_place_id db place_id = none) :
    score_and_update_place scorer db place_id
      = (db, mainCreateResponse "error" "Place not found !" JVal.null) := by
  have hlen0 : scores.length ≠ 0 := fun h0 => hne (List.length_eq_zero.mp h0)
  have hlen : (scores.length : ℚ) ≠ 0 := Nat.cast_ne_zero.mpr hlen0
  simp [score_and_update_place, hscores, aggregate, pyDiv, hlen, habsent]

/-- Witness for C4 (amended): a comment attached to the absent place id 5
is scored successfully and the update then returns the "Place not found !"
envelope. -/
theorem c4_witness :
    scoreList scorer1
        ((get_comments_by_place_id store3 5).map (fun c => c.comment_text))
      = Except.ok [1/5]
    ∧ get_place_by_place_id store3 5 = none
    ∧ score_and_update_place scorer1 store3 5
        = (store3, mainCreateResponse "error" "Place not found !" JVal.null) :=
  ⟨rfl, rfl, c4_place_absent_not_found scorer1 store3 5 [1/5] rfl (by simp) rfl⟩

/-- Counterexample to C4 as stated: place id 1 is absent from the empty
store, yet the rating update does not return the "place not found"
envelope — the empty comment fetch leads to the division-by-zero
internal-error envelope instead. -/
theorem c4_counterexample :
    get_place_by_place_id storeEmpty 1 = none
    ∧ score_and_update_place scorer1 storeEmpty 1
        = (storeEmpty, mainCreateResponse "error"
            "Internal Server Error: division by zero" JVal.null)
    ∧ (score_and_update_place scorer1 storeEmpty 1).2
        ≠ mainCreateResponse "error" "Place not found !" JVal.null := by
  have h : score_and_update_place scorer1 storeEmpty 1
      = (storeEmpty, mainCreateResponse "error"
          "Internal Server Error: division by zero" JVal.null) := by
    simp [score_and_update_place, scoreList, aggregate, pyDiv, pyErrMsg,
      get_comments_by_place_id, storeEmpty]
  refine ⟨rfl, h, ?_⟩
  rw [h]
  simp [mainCreateResponse]

/-- Claim C6: the rating update is idempotent — with a deterministic
scorer (any fixed `scorer` function) and a fixed comment set, running the
controller a second time on the store produced by the first run yields
exactly the same store and the same response; in particular the second
run's result does not depend on the rating written by the first run, and
the operation is safe to retry. -/
theorem c6_rating_update_idempotent (scorer : String → Except String ℚ)
    (db : Store) (place_id : ℕ) :
    score_and_update_place scorer (score_and_update_place scorer db place_id).1
        place_id
      = score_and_update_place scorer db place_id := by
  cases h1 : scoreList scorer
      ((get_comments_by_place_id db place_id).map (fun c => c.comment_text)) with
  | error e =>
      have hfst : (score_and_update_place scorer db place_id).1 = db := by
        simp [score_and_update_place, h1]
      rw [hfst]
  | ok scores =>
      cases h2 : aggregate scores with
      | error e =>
          have hfst : (score_and_update_place scorer db place_id).1 = db := by
            simp [score_and_update_place, h1, h2]
          rw [hfst]
      | ok avg =>
          cases h3 : get_place_by_place_id db place_id with
          | none =>
              have hfst : (score_and_update_place scorer db place_id).1 = db := by
                simp [score_and_update_place, h1, h2, h3]
              rw [hfst]
          | some p =>
              have hfst : score_and_update_place scorer db place_id
                  = (updateRating db place_id (avg * 5),
                     [("rating_score", JVal.num (avg * 5))]) := by
                simp [score_and_update_place, h1, h2, h3]
              have hc : get_comments_by_place_id
                    (updateRating db place_id (avg * 5)) place_id
                  = get_comments_by_place_id db place_id := rfl
              have hp : get_place_by_place_id
                    (updateRating db place_id (avg * 5)) place_id
                  = some { p with rating_score := avg * 5 } := by
                rw [get_place_updateRating, h3]
                rfl
              rw [hfst]
              simp [score_and_update_place, hc, h1, h2, hp, updateRating_idem]

end TravelApp
